import Mathlib

/-!
Shallow embedding of the "Location Resolution + Weather Cache" core of the
weather-lite repository (src/lib/location.ts and the WeatherCache module),
together with proofs settling the frozen claims about it.

Modelling conventions:
* JavaScript numbers are modelled as exact rationals (`ℚ`) for coordinates and
  as integers (`ℤ`) for millisecond timestamps; the concrete inputs used below
  are far from rounding ties, so decimal rounding on the exact rational agrees
  with `Number.prototype.toFixed` on the underlying double.
* An async function that can reject is modelled as `Except` valued; a
  `try { … } catch { … }` block is a `match` on that `Except`.
* The outcome of each external network call (browser geolocation, IP
  geolocation fetch, Nominatim reverse-geocoding fetch) is an input of the
  embedding, packaged in an environment record, since the code only ever
  observes those outcomes.
* JS truthiness on optional strings (`undefined` and `""` are falsy) and on
  optional booleans is modelled explicitly.
-/

namespace WeatherLite

/-- JS truthiness for an optional string: `undefined`/absent and `""` are falsy. -/
def truthyStr : Option String → Bool
  | none => false
  | some s => s ≠ ""

/-- JS `a || b` on optional strings: `a` when truthy, else `b`. -/
def jsOr (a b : Option String) : Option String :=
  if truthyStr a then a else b

/-- JS `if (x) field = x` applied to an optional field: overwrite only when truthy. -/
def setIfTruthy (cur new : Option String) : Option String :=
  if truthyStr new then new else cur

/-- JS truthiness of an optional boolean (`options?.flag`). -/
def optTruthy (b : Option Bool) : Bool := b.getD false

/-- A thrown JavaScript value: an `AbortError`, a generic `Error` with a
message, or a non-`Error` value. -/
inductive JsError
  | abortError (msg : String)
  | jsErr (msg : String)
  | nonError
deriving DecidableEq

/-- An HTTP response as observed by the code: `ok` flag, numeric status, and
the result of `response.json()` (which may itself reject). -/
instance {ε α : Type} [DecidableEq ε] [DecidableEq α] : DecidableEq (Except ε α) :=
  fun a b =>
    match a, b with
    | Except.error e₁, Except.error e₂ =>
      if h : e₁ = e₂ then isTrue (by rw [h]) else isFalse (by intro hh; cases hh; exact h rfl)
    | Except.ok x, Except.ok y =>
      if h : x = y then isTrue (by rw [h]) else isFalse (by intro hh; cases hh; exact h rfl)
    | Except.error _, Except.ok _ => isFalse (by intro h; cases h)
    | Except.ok _, Except.error _ => isFalse (by intro h; cases h)

/-- An HTTP response as observed by the code: `ok` flag, numeric status, and
the result of `response.json()` (which may itself reject). -/
structure HttpResp (β : Type) where
  ok : Bool
  status : Nat
  json : Except JsError β
deriving DecidableEq

/-- `src/lib/location.ts` `Location.source` provenance enum. -/
inductive LocSource
  | gps
  | ip
  | manual
  | default
deriving DecidableEq

/-- `src/lib/location.ts` `Location`. -/
structure Location where
  latitude : ℚ
  longitude : ℚ
  city : Option String
  country : Option String
  source : LocSource
deriving DecidableEq

/-- `src/lib/location.ts` `LocationErrorType`. -/
inductive LocationErrorType
  | PERMISSION_DENIED
  | POSITION_UNAVAILABLE
  | TIMEOUT
  | NOT_SUPPORTED
  | NETWORK_ERROR
  | UNKNOWN_ERROR
deriving DecidableEq

/-- `src/lib/location.ts` `LocationError` (the `originalError` diagnostic field
is dropped; it is only logged). -/
structure LocationError where
  type : LocationErrorType
  message : String
deriving DecidableEq

/-- `src/lib/location.ts` `LocationOptions`. -/
structure LocationOptions where
  enableHighAccuracy : Option Bool
  timeout : Option ℤ
  maximumAge : Option ℤ
  forceRefresh : Option Bool

/-- `src/lib/location.ts` `IPLocationResponse`; `lat`/`lon` are `some` exactly
when the JSON field is present with a numeric value (`typeof === 'number'`). -/
structure IPLocationResponse where
  status : String
  lat : Option ℚ
  lon : Option ℚ
  city : Option String
  country : Option String
  message : Option String
deriving DecidableEq

/-- `src/lib/location.ts` `LocationCacheEntry`. -/
structure LocationCacheEntry where
  location : Location
  timestamp : ℤ
  ttl : ℤ
deriving DecidableEq

/-- `LOCATION_CONSTANTS.CACHE_TTL` (5 minutes, in ms). -/
def CACHE_TTL : ℤ := 300000

/-- `config.location` from `src/lib/env.ts`. -/
structure LocationConfig where
  defaultCity : String
  defaultLat : ℚ
  defaultLon : ℚ

/-- `config.cache` from `src/lib/env.ts`. -/
structure CacheConfig where
  ttl : ℤ
  enabled : Bool

/-- The slice of `config` (src/lib/env.ts) the core reads. -/
structure Config where
  location : LocationConfig
  cache : CacheConfig

/-- The `config` built from `DEFAULT_CONFIG` in `src/unnamed/part_000`
(constants.ts): San Francisco defaults, 10-minute weather-cache TTL, caching
enabled. -/
def defaultConfig : Config :=
  { location :=
      { defaultCity := "San Francisco, California"
        defaultLat := (37.7749 : ℚ)
        defaultLon := (-122.4194 : ℚ) }
    cache := { ttl := 600000, enabled := true } }

/-- The Nominatim `address` object consulted by `reverseGeocode`. -/
structure NominatimAddress where
  city : Option String
  town : Option String
  village : Option String
  hamlet : Option String
  municipality : Option String
  country : Option String
deriving DecidableEq

/-- The parsed JSON payload of the reverse-geocoding response: `data.address`
is `some` exactly when the `address` field is present (truthy). -/
structure RevGeoPayload where
  address : Option NominatimAddress
deriving DecidableEq

/-- The result record `{city?, country?}` of `reverseGeocode`. -/
structure GeoNames where
  city : Option String
  country : Option String
deriving DecidableEq

/-- The outcome of the Nominatim fetch inside `reverseGeocode`: either the
fetch rejected, or an HTTP response whose body parse may itself reject. -/
abbrev RevGeoResponse := Except JsError (HttpResp RevGeoPayload)

/-- The `try` body of `reverseGeocode` (location.ts lines 104-136): throws when
fetch or `response.json()` rejects; returns `{}` on non-2xx or missing
`address`; otherwise picks `address.city || town || village || hamlet ||
municipality` and `address.country`. -/
def reverseGeocodeTry (r : RevGeoResponse) : Except JsError GeoNames :=
  match r with
  | Except.error e => Except.error e
  | Except.ok resp =>
    if resp.ok = false then Except.ok { city := none, country := none }
    else
      match resp.json with
      | Except.error e => Except.error e
      | Except.ok data =>
        match data.address with
        | none => Except.ok { city := none, country := none }
        | some a =>
          Except.ok
            { city := jsOr a.city (jsOr a.town (jsOr a.village (jsOr a.hamlet a.municipality)))
              country := a.country }

/-- `reverseGeocode` (location.ts lines 103-141): the whole body is wrapped in
`try { … } catch { return {} }`, so the function resolves on every input. -/
def reverseGeocode (r : RevGeoResponse) : Except JsError GeoNames :=
  match reverseGeocodeTry r with
  | Except.ok g => Except.ok g
  | Except.error _ => Except.ok { city := none, country := none }

/-- The failure modes of `reverseGeocode` named by the spec: the fetch (or body
parse) rejected, the response was non-2xx, or the payload has no `address`. -/
def isRevGeoFailure (r : RevGeoResponse) : Bool :=
  match r with
  | Except.error _ => true
  | Except.ok resp =>
    !resp.ok ||
      (match resp.json with
       | Except.error _ => true
       | Except.ok data => data.address.isNone)

/-- Coordinates delivered by the browser geolocation success callback. -/
structure GeoCoords where
  latitude : ℚ
  longitude : ℚ

/-- The outcomes of the external calls a single `detectLocation` run can make,
plus the values `Date.now()` returns at its two call sites. -/
structure DetectEnv where
  /-- Outcome of the browser geolocation request (already converted to a
  `LocationError` on failure, as `getBrowserLocation` does). -/
  gps : Except LocationError GeoCoords
  /-- Outcome of the `fetch(IP_API_BASE)` call in `getIPLocation`. -/
  ipFetch : Except JsError (HttpResp IPLocationResponse)
  /-- Outcome of the Nominatim fetch for given coordinates (used by every
  reverse-geocoding call in the chain). -/
  revGeo : ℚ → ℚ → RevGeoResponse
  /-- `Date.now()` at the cache-validity check (location.ts line 296). -/
  now : ℤ
  /-- `Date.now()` at the cache store (location.ts line 348). -/
  nowAtEnd : ℤ

/-- `getBrowserLocation` (location.ts lines 144-196): on GPS success, builds a
`source = 'gps'` location and enriches it through `reverseGeocode`'s
`.then`/`.catch`; a name-resolution rejection resolves with the bare
coordinates. The caller-supplied options only parameterize the external
geolocation request, whose outcome `env.gps` already reflects. -/
def getBrowserLocation (env : DetectEnv) (_options : Option LocationOptions) :
    Except LocationError Location :=
  match env.gps with
  | Except.error e => Except.error e
  | Except.ok c =>
    let base : Location :=
      { latitude := c.latitude, longitude := c.longitude
        city := none, country := none, source := LocSource.gps }
    match reverseGeocode (env.revGeo c.latitude c.longitude) with
    | Except.ok n =>
      Except.ok { base with city := setIfTruthy base.city n.city
                            country := setIfTruthy base.country n.country }
    | Except.error _ => Except.ok base

/-- `sub.isSubstrOf hay`: does `hay` contain `sub`? (JS `String.includes`). -/
def listContains (needle : List Char) : List Char → Bool
  | [] => needle.isEmpty
  | c :: t => needle.isPrefixOf (c :: t) || listContains needle t

/-- JS `s.includes(sub)`. -/
def strIncludes (s sub : String) : Bool := listContains sub.toList s.toList

/-- The `catch` classifier of `getIPLocation` (location.ts lines 254-285):
`AbortError` → TIMEOUT, message containing `fetch` → NETWORK_ERROR, otherwise
UNKNOWN_ERROR. -/
def classifyIPError : JsError → LocationError
  | JsError.abortError _ =>
    { type := LocationErrorType.TIMEOUT, message := "IP geolocation request timed out" }
  | JsError.jsErr m =>
    if strIncludes m "fetch" then
      { type := LocationErrorType.NETWORK_ERROR, message := "Network error during IP geolocation" }
    else
      { type := LocationErrorType.UNKNOWN_ERROR
        message := if m ≠ "" then m else "Unknown error during IP geolocation" }
  | JsError.nonError =>
    { type := LocationErrorType.UNKNOWN_ERROR, message := "Unknown error during IP geolocation" }

/-- The `try` body of `getIPLocation` (location.ts lines 200-253): fetch, check
`response.ok`, parse, check `status === 'success'`, check numeric lat/lon,
then enrich via `reverseGeocode` with a `catch` falling back to the IP
provider's own names. -/
def getIPLocationTry (env : DetectEnv) : Except JsError Location :=
  match env.ipFetch with
  | Except.error e => Except.error e
  | Except.ok resp =>
    if resp.ok = false then
      Except.error (JsError.jsErr ("IP geolocation request failed with status: " ++ toString resp.status))
    else
      match resp.json with
      | Except.error e => Except.error e
      | Except.ok data =>
        if data.status ≠ "success" then
          Except.error (JsError.jsErr ((jsOr data.message (some "IP geolocation failed")).getD ""))
        else
          match data.lat, data.lon with
          | some lat, some lon =>
            let base : Location :=
              { latitude := lat, longitude := lon
                city := none, country := none, source := LocSource.ip }
            (match reverseGeocode (env.revGeo lat lon) with
             | Except.ok n =>
               Except.ok { base with city := setIfTruthy base.city n.city
                                     country := setIfTruthy base.country n.country }
             | Except.error _ =>
               Except.ok { base with city := data.city, country := data.country })
          | _, _ =>
            Except.error (JsError.jsErr "Invalid location data received from IP geolocation")

/-- `getIPLocation` (location.ts lines 199-287): the `try` body with its
`catch` converting any thrown value into a `LocationError` and rethrowing. -/
def getIPLocation (env : DetectEnv) : Except LocationError Location :=
  match getIPLocationTry env with
  | Except.ok loc => Except.ok loc
  | Except.error e => Except.error (classifyIPError e)

/-- Instrumentation: which steps of the fallback chain a `detectLocation` run
entered (in order). -/
inductive DetectStep
  | gps
  | ip
  | defaultStep
deriving DecidableEq

/-- What a `detectLocation` run produces: the resolved location, the new value
of the module-level `locationCache` slot, and the list of fallback steps the
run entered. -/
structure DetectResult where
  location : Location
  cache : Option LocationCacheEntry
  attempts : List DetectStep

/-- Lines 345-352: unconditionally replace the single-slot cache and resolve. -/
def finishDetect (loc : Location) (steps : List DetectStep) (env : DetectEnv) : DetectResult :=
  { location := loc
    cache := some { location := loc, timestamp := env.nowAtEnd, ttl := CACHE_TTL }
    attempts := steps }

/-- The fallback chain of `detectLocation` (location.ts lines 303-343): GPS,
then IP, then the configured default enriched by reverse geocoding whose
`catch` would fall back to `config.location.defaultCity`. -/
def detectChain (options : Option LocationOptions) (cfg : Config) (env : DetectEnv) :
    Except LocationError DetectResult :=
  match getBrowserLocation env options with
  | Except.ok loc => Except.ok (finishDetect loc [DetectStep.gps] env)
  | Except.error _e1 =>
    match getIPLocation env with
    | Except.ok loc => Except.ok (finishDetect loc [DetectStep.gps, DetectStep.ip] env)
    | Except.error _e2 =>
      let base : Location :=
        { latitude := cfg.location.defaultLat, longitude := cfg.location.defaultLon
          city := none, country := none, source := LocSource.default }
      let loc :=
        match reverseGeocode (env.revGeo cfg.location.defaultLat cfg.location.defaultLon) with
        | Except.ok n =>
          { base with city := setIfTruthy base.city n.city
                      country := setIfTruthy base.country n.country }
        | Except.error _ => { base with city := some cfg.location.defaultCity }
      Except.ok (finishDetect loc [DetectStep.gps, DetectStep.ip, DetectStep.defaultStep] env)

/-- `detectLocation` (location.ts lines 293-353): return the cached location
when a slot exists, `forceRefresh` is not truthy, and `now - timestamp < ttl`;
otherwise run the fallback chain. `st` is the current `locationCache` slot. -/
def detectLocation (options : Option LocationOptions) (st : Option LocationCacheEntry)
    (cfg : Config) (env : DetectEnv) : Except LocationError DetectResult :=
  match st with
  | some e =>
    if optTruthy (options.bind fun o => o.forceRefresh) = false ∧ env.now - e.timestamp < e.ttl
    then Except.ok { location := e.location, cache := some e, attempts := [] }
    else detectChain options cfg env
  | none => detectChain options cfg env

/-- The cache-short-circuit condition of `detectLocation` as a boolean:
`!options?.forceRefresh && locationCache && now - timestamp < ttl`. -/
def cacheHitB (options : Option LocationOptions) (st : Option LocationCacheEntry)
    (now : ℤ) : Bool :=
  match st with
  | some e =>
    !(optTruthy (options.bind fun o => o.forceRefresh)) && decide (now - e.timestamp < e.ttl)
  | none => false

/-- `src/lib/weather.ts` `CurrentWeather`. -/
structure CurrentWeather where
  temperature : ℚ
  feelsLike : ℚ
  condition : String
  weatherCode : ℕ
  humidity : ℚ
  windSpeed : ℚ
  windDirection : ℚ
  pressure : ℚ
  uvIndex : ℚ
  visibility : ℚ
  icon : String
  time : String
deriving DecidableEq

/-- `src/lib/weather.ts` `ForecastDay`. -/
structure ForecastDay where
  date : String
  dayOfWeek : String
  temperatureMax : ℚ
  temperatureMin : ℚ
  condition : String
  weatherCode : ℕ
  icon : String
  precipitationSum : ℚ
  precipitationProbability : ℚ
  windSpeedMax : ℚ
  uvIndexMax : ℚ
deriving DecidableEq

/-- `src/lib/weather.ts` `WeatherLocation`. -/
structure WeatherLocation where
  name : String
  country : Option String
  latitude : ℚ
  longitude : ℚ
  timezone : String
deriving DecidableEq

/-- The `'cache' | 'api'` provenance tag of `WeatherData`. -/
inductive WSource
  | cache
  | api
deriving DecidableEq

/-- `src/lib/weather.ts` `WeatherData`. -/
structure WeatherData where
  current : CurrentWeather
  forecast : List ForecastDay
  location : WeatherLocation
  timestamp : ℤ
  source : WSource
deriving DecidableEq

/-- Zero-pad a natural number to 4 digits (the fractional part of `toFixed(4)`). -/
def pad4 (k : ℕ) : String :=
  let s := toString k
  String.mk (List.replicate (4 - s.length) '0') ++ s

/-- Digits of `(n/d).toFixed(4)` for a nonnegative rational `n/d`: the integer
`m` with `m / 10^4` closest to `n/d` (larger `m` on a tie, per ECMA-262), i.e.
`⌊n·10^4/d + 1/2⌋ = ⌊(2·n·10^4 + d) / (2·d)⌋`, rendered with exactly four
fractional digits. Computed on the numerator and denominator so that it
evaluates by kernel reduction. -/
def fixedDigits (n : ℤ) (d : ℕ) : String :=
  let m : ℕ := (2 * n * 10000 + (d : ℤ)).toNat / (2 * d)
  toString (m / 10000) ++ "." ++ pad4 (m % 10000)

/-- `Number.prototype.toFixed(4)`, on the exact rational value: negative
inputs are formatted as `-` followed by the digits of the absolute value
(`x < 0` iff the reduced numerator is negative). -/
def toFixed4 (x : ℚ) : String :=
  if x.num < 0 then "-" ++ fixedDigits (-x.num) x.den else fixedDigits x.num x.den

/-- `WeatherCache.getCacheKey` (cache.ts lines 115-121):
`` `${lat.toFixed(4)},${lon.toFixed(4)}` ``. -/
def getCacheKey (latitude longitude : ℚ) : String :=
  toFixed4 latitude ++ "," ++ toFixed4 longitude

/-- `CacheEntry` of the weather cache (cache.ts lines 8-12). -/
structure CacheEntry where
  data : WeatherData
  timestamp : ℤ
  expiresAt : ℤ
deriving DecidableEq

/-- First value bound to `key` in an insertion-ordered association list (the
JS `Map.get`). -/
def lookupKey {α : Type} : List (String × α) → String → Option α
  | [], _ => none
  | (k, e) :: t, key => if k = key then some e else lookupKey t key

/-- Remove the binding of `key` (the JS `Map.delete`; keys are unique in a
`Map`, so removing the first occurrence is exact). -/
def eraseKey {α : Type} : List (String × α) → String → List (String × α)
  | [], _ => []
  | (k, e) :: t, key => if k = key then t else (k, e) :: eraseKey t key

/-- The `WeatherCache` state: its `Map` as an insertion-ordered association
list (head = oldest, i.e. least recently used), plus the two construction-time
constants. `maxEntries` defaults to 10 and `ttl` to `config.cache.ttl` at the
construction site (`ttl || config.cache.ttl`). -/
structure WeatherCache where
  entries : List (String × CacheEntry)
  maxEntries : ℕ
  ttl : ℤ

/-- The `WeatherCache` constructor (cache.ts lines 20-24): empty map, given
capacity, and `ttl || config.cache.ttl` (0 is falsy in JS). -/
def WeatherCache.create (maxEntries : ℕ) (ttlOpt : Option ℤ) (cfg : Config) : WeatherCache :=
  { entries := []
    maxEntries := maxEntries
    ttl := match ttlOpt with
           | none => cfg.cache.ttl
           | some t => if t = 0 then cfg.cache.ttl else t }

/-- `WeatherCache.get` (cache.ts lines 42-75): `null` when caching is
disabled; key lookup; lazy expiry (`now > expiresAt` deletes and misses);
otherwise promote to most-recently-used and return a shallow copy of the
payload with `source` overwritten to `'cache'`. Returns the result and the
updated cache state. -/
def WeatherCache.get (c : WeatherCache) (cfg : Config) (now : ℤ)
    (latitude longitude : ℚ) : Option WeatherData × WeatherCache :=
  if cfg.cache.enabled = false then (none, c)
  else
    let key := getCacheKey latitude longitude
    match lookupKey c.entries key with
    | none => (none, c)
    | some entry =>
      if now > entry.expiresAt then
        (none, { c with entries := eraseKey c.entries key })
      else
        (some { entry.data with source := WSource.cache },
         { c with entries := eraseKey c.entries key ++ [(key, entry)] })

/-- `WeatherCache.set` (cache.ts lines 78-112): no-op when caching is
disabled; when the key is new and `size >= maxEntries`, delete the first map
entry (the `if (firstKey)` guard only rules out the empty map, since every
`getCacheKey` result is a nonempty string); then delete-and-reinsert the key
at most-recently-used position. -/
def WeatherCache.set (c : WeatherCache) (cfg : Config) (now : ℤ)
    (latitude longitude : ℚ) (data : WeatherData) : WeatherCache :=
  if cfg.cache.enabled = false then c
  else
    let key := getCacheKey latitude longitude
    let entry : CacheEntry := { data := data, timestamp := now, expiresAt := now + c.ttl }
    let afterEvict :=
      if c.entries.length ≥ c.maxEntries ∧ (lookupKey c.entries key).isNone then
        match c.entries with
        | [] => []
        | _ :: rest => rest
      else c.entries
    { c with entries := eraseKey afterEvict key ++ [(key, entry)] }

/-- `WeatherCache.has` (cache.ts lines 124-137): key lookup with the same lazy
expiry as `get`, but no promotion — and no `isEnabled` check. -/
def WeatherCache.hasLoc (c : WeatherCache) (now : ℤ)
    (latitude longitude : ℚ) : Bool × WeatherCache :=
  let key := getCacheKey latitude longitude
  match lookupKey c.entries key with
  | none => (false, c)
  | some entry =>
    if now > entry.expiresAt then (false, { c with entries := eraseKey c.entries key })
    else (true, c)

/-- `WeatherCache.clear` (cache.ts lines 27-29). -/
def WeatherCache.clearAll (c : WeatherCache) : WeatherCache :=
  { c with entries := [] }

/-- The record returned by `WeatherCache.getStats` (cache.ts lines 140-152). -/
structure CacheStats where
  size : ℕ
  maxEntries : ℕ
  ttl : ℤ
  enabled : Bool
deriving DecidableEq

/-- `WeatherCache.getStats`. -/
def WeatherCache.getStats (c : WeatherCache) (cfg : Config) : CacheStats :=
  { size := c.entries.length
    maxEntries := c.maxEntries
    ttl := c.ttl
    enabled := cfg.cache.enabled }

/-- One public weather-cache operation, with the ambient config and clock it
observes at call time (`isEnabled` re-reads `config.cache.enabled` on every
call). -/
inductive CacheOp
  | opGet (cfg : Config) (now : ℤ) (latitude longitude : ℚ)
  | opSet (cfg : Config) (now : ℤ) (latitude longitude : ℚ) (data : WeatherData)
  | opHas (now : ℤ) (latitude longitude : ℚ)
  | opClear

/-- Apply one operation to the cache state. -/
def applyOp (c : WeatherCache) : CacheOp → WeatherCache
  | CacheOp.opGet cfg now la lo => (WeatherCache.get c cfg now la lo).2
  | CacheOp.opSet cfg now la lo d => WeatherCache.set c cfg now la lo d
  | CacheOp.opHas now la lo => (WeatherCache.hasLoc c now la lo).2
  | CacheOp.opClear => WeatherCache.clearAll c

/-- Run a sequence of operations. -/
def runOps (c : WeatherCache) : List CacheOp → WeatherCache
  | [] => c
  | op :: rest => runOps (applyOp c op) rest

/-! ### Association-list lemmas for the `Map` model -/

theorem lookupKey_eraseKey_ne {α : Type} (l : List (String × α)) (key k : String)
    (h : key ≠ k) : lookupKey (eraseKey l key) k = lookupKey l k := by
  induction l with
  | nil => rfl
  | cons p t ih =>
    obtain ⟨k', e⟩ := p
    by_cases hk : k' = key
    · subst hk
      simp [eraseKey, lookupKey, h]
    · simp only [eraseKey, if_neg hk, lookupKey]
      by_cases hk2 : k' = k
      · simp only [if_pos hk2]
      · simp only [if_neg hk2, ih]

theorem length_eraseKey_some {α : Type} (l : List (String × α)) (key : String)
    (e : α) (h : lookupKey l key = some e) :
    (eraseKey l key).length + 1 = l.length := by
  induction l with
  | nil => simp [lookupKey] at h
  | cons p t ih =>
    obtain ⟨k', e'⟩ := p
    by_cases hk : k' = key
    · simp only [eraseKey, if_pos hk, List.length_cons]
    · simp only [lookupKey, if_neg hk] at h
      simp only [eraseKey, if_neg hk, List.length_cons, ih h]

theorem eraseKey_none {α : Type} (l : List (String × α)) (key : String)
    (h : lookupKey l key = none) : eraseKey l key = l := by
  induction l with
  | nil => rfl
  | cons p t ih =>
    obtain ⟨k', e'⟩ := p
    by_cases hk : k' = key
    · simp [lookupKey, hk] at h
    · simp only [lookupKey, if_neg hk] at h
      simp only [eraseKey, if_neg hk, ih h]

theorem lookupKey_append_some {α : Type} (l₁ l₂ : List (String × α)) (key : String)
    (e : α) (h : lookupKey l₁ key = some e) :
    lookupKey (l₁ ++ l₂) key = some e := by
  induction l₁ with
  | nil => simp [lookupKey] at h
  | cons p t ih =>
    obtain ⟨k', e'⟩ := p
    by_cases hk : k' = key
    · simp only [lookupKey, if_pos hk] at h
      simp only [List.cons_append, lookupKey, if_pos hk, h]
    · simp only [lookupKey, if_neg hk] at h
      simp only [List.cons_append, lookupKey, if_neg hk]
      exact ih h

theorem lookupKey_append_none {α : Type} (l₁ l₂ : List (String × α)) (key : String)
    (h : lookupKey l₁ key = none) :
    lookupKey (l₁ ++ l₂) key = lookupKey l₂ key := by
  induction l₁ with
  | nil => rfl
  | cons p t ih =>
    obtain ⟨k', e'⟩ := p
    by_cases hk : k' = key
    · simp [lookupKey, hk] at h
    · simp only [lookupKey, if_neg hk] at h
      simp only [List.cons_append, lookupKey, if_neg hk]
      exact ih h

theorem lookupKey_cons_none {α : Type} (p : String × α) (t : List (String × α))
    (key : String) (h : lookupKey (p :: t) key = none) :
    p.1 ≠ key ∧ lookupKey t key = none := by
  obtain ⟨k', e'⟩ := p
  by_cases hk : k' = key
  · simp [lookupKey, hk] at h
  · simp only [lookupKey, if_neg hk] at h
    exact ⟨hk, h⟩

theorem lookupKey_eq_none_of_not_mem {α : Type} (l : List (String × α)) (key : String)
    (h : key ∉ l.map Prod.fst) : lookupKey l key = none := by
  induction l with
  | nil => rfl
  | cons p t ih =>
    obtain ⟨k', e'⟩ := p
    simp only [List.map_cons, List.mem_cons] at h
    push_neg at h
    have hne : k' ≠ key := fun hh => h.1 hh.symm
    simp only [lookupKey, if_neg hne]
    exact ih h.2

theorem lookupKey_eraseKey_self {α : Type} (l : List (String × α)) (key : String)
    (h : (l.map Prod.fst).Nodup) : lookupKey (eraseKey l key) key = none := by
  induction l with
  | nil => rfl
  | cons p t ih =>
    obtain ⟨k', e'⟩ := p
    simp only [List.map_cons, List.nodup_cons] at h
    by_cases hk : k' = key
    · subst hk
      simp only [eraseKey, if_pos rfl]
      exact lookupKey_eq_none_of_not_mem t k' h.1
    · simp only [eraseKey, if_neg hk, lookupKey, if_neg hk]
      exact ih h.2

/-! ### Sample data for concrete witnesses -/

/-- A sample weather payload with provenance `api`. -/
def sampleWeather : WeatherData :=
  { current :=
      { temperature := mkRat 20 1, feelsLike := mkRat 19 1, condition := "Clear sky"
        weatherCode := 0, humidity := mkRat 65 1, windSpeed := mkRat 10 1
        windDirection := mkRat 180 1, pressure := mkRat 1013 1, uvIndex := mkRat 5 1
        visibility := mkRat 10000 1, icon := "clear", time := "2024-01-15T12:00" }
    forecast := []
    location :=
      { name := "San Francisco", country := some "United States"
        latitude := mkRat 377749 10000, longitude := mkRat (-1224194) 10000
        timezone := "America/Los_Angeles" }
    timestamp := 0
    source := WSource.api }

/-! ### Claims -/

/-- C8: `reverseGeocode` never propagates an error to its caller: it resolves
on every input, and on each of the spec's failure modes (fetch/parse
rejection, non-2xx response, payload without an `address` object) it resolves
with the empty result `{}` (no city, no country). -/
theorem c8_reverse_geocode_absorbs (r : RevGeoResponse) :
    (∃ g, reverseGeocode r = Except.ok g) ∧
      (isRevGeoFailure r = true →
        reverseGeocode r = Except.ok { city := none, country := none }) := by
  cases r with
  | error e => exact ⟨⟨{ city := none, country := none }, rfl⟩, fun _ => rfl⟩
  | ok resp =>
    obtain ⟨ok, status, json⟩ := resp
    cases ok with
    | false => exact ⟨⟨{ city := none, country := none }, rfl⟩, fun _ => rfl⟩
    | true =>
      cases json with
      | error e => exact ⟨⟨{ city := none, country := none }, rfl⟩, fun _ => rfl⟩
      | ok data =>
        cases hA : data.address with
        | none =>
          refine ⟨⟨{ city := none, country := none }, ?_⟩, fun _ => ?_⟩ <;>
            simp [reverseGeocode, reverseGeocodeTry, hA]
        | some a =>
          refine
            ⟨⟨{ city := jsOr a.city (jsOr a.town (jsOr a.village (jsOr a.hamlet a.municipality)))
                country := a.country }, ?_⟩, fun hfail => ?_⟩
          · simp [reverseGeocode, reverseGeocodeTry, hA]
          · simp [isRevGeoFailure, hA] at hfail

/-- Witness for C8 at a concrete failing input: a rejected fetch resolves with
the empty result. -/
theorem c8_reverse_geocode_absorbs_witness :
    isRevGeoFailure (Except.error (JsError.jsErr "network down")) = true ∧
      reverseGeocode (Except.error (JsError.jsErr "network down")) =
        Except.ok { city := none, country := none } :=
  ⟨rfl, (c8_reverse_geocode_absorbs (Except.error (JsError.jsErr "network down"))).2 rfl⟩

/-- C9: the cache key is the coordinates rounded to 4 decimal places formatted
as `"{lat},{lon}"`: both `(37.774912345, -122.419412345)` and
`(37.77491, -122.41941)` map to the key `"37.7749,-122.4194"`, so a `set` with
the first pair followed by a `get` with the second pair (same clock, caching
enabled, within the 10-minute TTL) is a hit. -/
theorem c9_cache_key_rounding :
    getCacheKey (mkRat 37774912345 1000000000) (mkRat (-122419412345) 1000000000) =
        "37.7749,-122.4194" ∧
      getCacheKey (mkRat 3777491 100000) (mkRat (-12241941) 100000) =
        "37.7749,-122.4194" ∧
      (WeatherCache.get
          (WeatherCache.set (WeatherCache.create 10 none defaultConfig) defaultConfig 1000
            (mkRat 37774912345 1000000000) (mkRat (-122419412345) 1000000000) sampleWeather)
          defaultConfig 1000 (mkRat 3777491 100000) (mkRat (-12241941) 100000)).1 =
        some { sampleWeather with source := WSource.cache } := by
  refine ⟨by decide, by decide, by decide⟩

/-! ### Helper lemmas about `detectLocation` -/

theorem detectLocation_not_hit (options : Option LocationOptions)
    (st : Option LocationCacheEntry) (cfg : Config) (env : DetectEnv)
    (h : cacheHitB options st env.now = false) :
    detectLocation options st cfg env = detectChain options cfg env := by
  cases st with
  | none => rfl
  | some e =>
    simp only [detectLocation]
    rw [if_neg]
    intro hcond
    obtain ⟨h1, h2⟩ := hcond
    simp only [cacheHitB, h1] at h
    simp [h2] at h

theorem getBrowserLocation_error (env : DetectEnv) (options : Option LocationOptions)
    (e : LocationError) (h : env.gps = Except.error e) :
    getBrowserLocation env options = Except.error e := by
  simp [getBrowserLocation, h]

theorem detectChain_ok (options : Option LocationOptions) (cfg : Config) (env : DetectEnv) :
    ∃ r, detectChain options cfg env = Except.ok r := by
  cases hB : getBrowserLocation env options with
  | ok loc =>
    refine ⟨finishDetect loc [DetectStep.gps] env, ?_⟩
    simp [detectChain, hB]
  | error e1 =>
    cases hI : getIPLocation env with
    | ok loc =>
      refine ⟨finishDetect loc [DetectStep.gps, DetectStep.ip] env, ?_⟩
      simp [detectChain, hB, hI]
    | error e2 =>
      cases hR : reverseGeocode (env.revGeo cfg.location.defaultLat cfg.location.defaultLon) with
      | ok n =>
        refine ⟨finishDetect
          { latitude := cfg.location.defaultLat, longitude := cfg.location.defaultLon
            city := setIfTruthy none n.city, country := setIfTruthy none n.country
            source := LocSource.default }
          [DetectStep.gps, DetectStep.ip, DetectStep.defaultStep] env, ?_⟩
        simp [detectChain, hB, hI, hR]
      | error e3 =>
        refine ⟨finishDetect
          { latitude := cfg.location.defaultLat, longitude := cfg.location.defaultLon
            city := some cfg.location.defaultCity, country := none
            source := LocSource.default }
          [DetectStep.gps, DetectStep.ip, DetectStep.defaultStep] env, ?_⟩
        simp [detectChain, hB, hI, hR]

theorem detectChain_attempts_head (options : Option LocationOptions) (cfg : Config)
    (env : DetectEnv) (r : DetectResult) (h : detectChain options cfg env = Except.ok r) :
    r.attempts.head? = some DetectStep.gps := by
  cases hB : getBrowserLocation env options with
  | ok loc =>
    simp only [detectChain, hB] at h
    injection h with h2
    subst h2
    rfl
  | error e1 =>
    cases hI : getIPLocation env with
    | ok loc =>
      simp only [detectChain, hB, hI] at h
      injection h with h2
      subst h2
      rfl
    | error e2 =>
      cases hR : reverseGeocode (env.revGeo cfg.location.defaultLat cfg.location.defaultLon) with
      | ok n =>
        simp only [detectChain, hB, hI, hR] at h
        injection h with h2
        subst h2
        rfl
      | error e3 =>
        simp only [detectChain, hB, hI, hR] at h
        injection h with h2
        subst h2
        rfl

theorem getIPLocation_ok_source (env : DetectEnv) (loc : Location)
    (h : getIPLocation env = Except.ok loc) : loc.source = LocSource.ip := by
  unfold getIPLocation at h
  cases ht : getIPLocationTry env with
  | error e => rw [ht] at h; cases h
  | ok l2 =>
    rw [ht] at h
    injection h with h2
    subst h2
    simp only [getIPLocationTry] at ht
    repeat' split at ht
    all_goals
      first
        | (injection ht with h3; subst h3; rfl)
        | (injection ht with h3; rfl)
        | (injection ht)

/-! ### C4 -/

/-- C4: `detectLocation` always resolves with some `Location` and never
rejects — for every combination of GPS, IP, and reverse-geocoding outcomes
(all ranged over by `env`), every provider error is caught inside the function
and the default step always produces coordinates. -/
theorem c4_detect_never_rejects (options : Option LocationOptions)
    (st : Option LocationCacheEntry) (cfg : Config) (env : DetectEnv) :
    ∃ r, detectLocation options st cfg env = Except.ok r := by
  cases hhit : cacheHitB options st env.now with
  | false =>
    rw [detectLocation_not_hit options st cfg env hhit]
    exact detectChain_ok options cfg env
  | true =>
    cases st with
    | none => simp [cacheHitB] at hhit
    | some e =>
      simp only [cacheHitB, Bool.and_eq_true, Bool.not_eq_eq_eq_not, Bool.not_true,
        decide_eq_true_eq] at hhit
      refine ⟨{ location := e.location, cache := some e, attempts := [] }, ?_⟩
      simp [detectLocation, hhit.1, hhit.2]

/-! ### C1 -/

/-- C1: with a cache miss (empty/expired slot or forced refresh) and a GPS
failure, an IP success yields `source = ip` and the default step is never
entered; failures of both GPS and IP yield `source = default` with the
statically configured default coordinates. -/
theorem c1_fallback_order (options : Option LocationOptions)
    (st : Option LocationCacheEntry) (cfg : Config) (env : DetectEnv)
    (eG : LocationError) (r : DetectResult)
    (hmiss : cacheHitB options st env.now = false)
    (hgps : env.gps = Except.error eG)
    (hdet : detectLocation options st cfg env = Except.ok r) :
    (∀ loc, getIPLocation env = Except.ok loc →
        r.location.source = LocSource.ip ∧ DetectStep.defaultStep ∉ r.attempts) ∧
      (∀ eI, getIPLocation env = Except.error eI →
        r.location.source = LocSource.default ∧
          r.location.latitude = cfg.location.defaultLat ∧
          r.location.longitude = cfg.location.defaultLon) := by
  rw [detectLocation_not_hit options st cfg env hmiss] at hdet
  have hB := getBrowserLocation_error env options eG hgps
  constructor
  · intro loc hI
    simp only [detectChain, hB, hI] at hdet
    injection hdet with h2
    subst h2
    refine ⟨getIPLocation_ok_source env loc hI, ?_⟩
    intro hmem
    simp [finishDetect] at hmem
  · intro eI hI
    simp only [detectChain, hB, hI] at hdet
    cases hR : reverseGeocode (env.revGeo cfg.location.defaultLat cfg.location.defaultLon) with
    | ok n =>
      rw [hR] at hdet
      injection hdet with h2
      subst h2
      exact ⟨rfl, rfl, rfl⟩
    | error e3 =>
      rw [hR] at hdet
      injection hdet with h2
      subst h2
      exact ⟨rfl, rfl, rfl⟩

/-! ### Concrete environments for witnesses -/

/-- A GPS permission-denied failure. -/
def gpsErr : LocationError :=
  { type := LocationErrorType.PERMISSION_DENIED, message := "User denied location permission" }

/-- An IP-API success payload whose provider-reported names are Paris/France. -/
def ipBody1 : IPLocationResponse :=
  { status := "success", lat := some (mkRat 4885 100), lon := some (mkRat 235 100)
    city := some "Paris", country := some "France", message := none }

/-- The HTTP response wrapping `ipBody1`. -/
def ipResp1 : HttpResp IPLocationResponse :=
  { ok := true, status := 200, json := Except.ok ipBody1 }

/-- A Nominatim address for Paris. -/
def addr1 : NominatimAddress :=
  { city := some "Paris", town := none, village := none, hamlet := none
    municipality := none, country := some "France" }

/-- Environment: GPS fails, IP succeeds, reverse geocoding succeeds. -/
def envW1 : DetectEnv :=
  { gps := Except.error gpsErr
    ipFetch := Except.ok ipResp1
    revGeo := fun _ _ =>
      Except.ok { ok := true, status := 200, json := Except.ok { address := some addr1 } }
    now := 0, nowAtEnd := 5 }

/-- Environment: GPS, IP and reverse geocoding all fail. -/
def envAllFail : DetectEnv :=
  { gps := Except.error gpsErr
    ipFetch := Except.error (JsError.jsErr "network down")
    revGeo := fun _ _ => Except.error (JsError.jsErr "nominatim down")
    now := 0, nowAtEnd := 5 }

/-- The result of `detectLocation` on `envW1` with an empty cache. -/
def c1res : DetectResult :=
  { location :=
      { latitude := mkRat 4885 100, longitude := mkRat 235 100
        city := some "Paris", country := some "France", source := LocSource.ip }
    cache := some
      { location :=
          { latitude := mkRat 4885 100, longitude := mkRat 235 100
            city := some "Paris", country := some "France", source := LocSource.ip }
        timestamp := 5, ttl := CACHE_TTL }
    attempts := [DetectStep.gps, DetectStep.ip] }

/-- Witness for C1: on `envW1` (GPS fails, IP succeeds, empty cache) the
result has `source = ip` and the default step was never entered. -/
theorem c1_fallback_order_witness :
    cacheHitB none none envW1.now = false ∧
      envW1.gps = Except.error gpsErr ∧
      detectLocation none none defaultConfig envW1 = Except.ok c1res ∧
      c1res.location.source = LocSource.ip ∧
      DetectStep.defaultStep ∉ c1res.attempts := by
  have happ :=
    (c1_fallback_order none none defaultConfig envW1 gpsErr c1res rfl rfl rfl).1
      c1res.location rfl
  exact ⟨rfl, rfl, rfl, happ.1, happ.2⟩

/-! ### C2 -/

/-- C2: `detectLocation` returns the cached location immediately with zero
provider steps exactly when a slot exists, is unexpired, and `forceRefresh` is
not set; in every other case the fallback chain runs, starting with the GPS
step — even when a valid cache entry exists (forced refresh). -/
theorem c2_cache_short_circuit (options : Option LocationOptions)
    (st : Option LocationCacheEntry) (cfg : Config) (env : DetectEnv) :
    (∀ e, st = some e →
        optTruthy (options.bind fun o => o.forceRefresh) = false →
        env.now - e.timestamp < e.ttl →
        detectLocation options st cfg env =
          Except.ok { location := e.location, cache := some e, attempts := [] }) ∧
      (cacheHitB options st env.now = false →
        ∀ r, detectLocation options st cfg env = Except.ok r →
          r.attempts.head? = some DetectStep.gps) := by
  constructor
  · intro e hst h1 h2
    subst hst
    simp [detectLocation, h1, h2]
  · intro hmiss r hdet
    rw [detectLocation_not_hit options st cfg env hmiss] at hdet
    exact detectChain_attempts_head options cfg env r hdet

/-- A cached location entry used by the C2 witness. -/
def entryW : LocationCacheEntry :=
  { location :=
      { latitude := mkRat 1 1, longitude := mkRat 2 1
        city := none, country := none, source := LocSource.manual }
    timestamp := 0, ttl := 300000 }

/-- Witness for C2: with a fresh cache slot and no `forceRefresh`, the cached
location is returned unchanged with zero provider steps. -/
theorem c2_cache_short_circuit_witness :
    optTruthy ((none : Option LocationOptions).bind fun o => o.forceRefresh) = false ∧
      envAllFail.now - entryW.timestamp < entryW.ttl ∧
      detectLocation none (some entryW) defaultConfig envAllFail =
        Except.ok { location := entryW.location, cache := some entryW, attempts := [] } := by
  refine ⟨rfl, by decide, ?_⟩
  exact (c2_cache_short_circuit none (some entryW) defaultConfig envAllFail).1 entryW rfl rfl
    (by decide)

/-! ### C6 -/

/-- The result of `detectLocation` on `envAllFail` with an empty cache: the
default coordinates with no city, even though reverse geocoding failed. -/
def c6res : DetectResult :=
  { location :=
      { latitude := defaultConfig.location.defaultLat
        longitude := defaultConfig.location.defaultLon
        city := none, country := none, source := LocSource.default }
    cache := some
      { location :=
          { latitude := defaultConfig.location.defaultLat
            longitude := defaultConfig.location.defaultLon
            city := none, country := none, source := LocSource.default }
        timestamp := 5, ttl := CACHE_TTL }
    attempts := [DetectStep.gps, DetectStep.ip, DetectStep.defaultStep] }

/-- Counterexample to C6 as stated: on `envAllFail` (GPS and IP fail, the
Nominatim fetch rejects, so reverse-name resolution produces no city) the
returned location's `city` is `none`, not the configured default city
`"San Francisco, California"`. The `catch` arm that would assign
`config.location.defaultCity` never runs because `reverseGeocode` absorbs its
own errors and resolves with `{}`. -/
theorem c6_default_city_cex :
    detectLocation none none defaultConfig envAllFail = Except.ok c6res ∧
      c6res.location.city = none ∧
      defaultConfig.location.defaultCity = "San Francisco, California" :=
  ⟨rfl, rfl, rfl⟩

/-- C6 (amended): in the default step, when reverse-name resolution resolves
without a truthy city — which is how it reports every failure, since it never
rejects — the returned location's `city` stays absent; the fallback to
`config.location.defaultCity` is unreachable. -/
theorem c6_default_city_amended (options : Option LocationOptions)
    (st : Option LocationCacheEntry) (cfg : Config) (env : DetectEnv)
    (eG eI : LocationError) (n : GeoNames) (r : DetectResult)
    (hmiss : cacheHitB options st env.now = false)
    (hgps : env.gps = Except.error eG)
    (hip : getIPLocation env = Except.error eI)
    (hR : reverseGeocode (env.revGeo cfg.location.defaultLat cfg.location.defaultLon) =
      Except.ok n)
    (hcity : truthyStr n.city = false)
    (hdet : detectLocation options st cfg env = Except.ok r) :
    r.location.city = none := by
  rw [detectLocation_not_hit options st cfg env hmiss] at hdet
  have hB := getBrowserLocation_error env options eG hgps
  simp only [detectChain, hB, hip, hR] at hdet
  injection hdet with h2
  subst h2
  simp [finishDetect, setIfTruthy, hcity]

/-- Witness for the amended C6 at the concrete all-fail environment. -/
theorem c6_default_city_amended_witness :
    detectLocation none none defaultConfig envAllFail = Except.ok c6res ∧
      c6res.location.city = none := by
  refine ⟨rfl, ?_⟩
  exact c6_default_city_amended none none defaultConfig envAllFail gpsErr
    { type := LocationErrorType.UNKNOWN_ERROR, message := "network down" }
    { city := none, country := none } c6res rfl rfl rfl rfl rfl rfl

/-! ### C7 -/

/-- Environment: GPS fails, the IP provider succeeds with Paris/France as its
own names, and the Nominatim fetch rejects. -/
def envIpParis : DetectEnv :=
  { gps := Except.error gpsErr
    ipFetch := Except.ok ipResp1
    revGeo := fun _ _ => Except.error (JsError.jsErr "nominatim down")
    now := 0, nowAtEnd := 5 }

/-- The location `getIPLocation` returns on `envIpParis`: coordinates only,
no names. -/
def ipParisLoc : Location :=
  { latitude := mkRat 4885 100, longitude := mkRat 235 100
    city := none, country := none, source := LocSource.ip }

/-- Counterexample to C7 as stated: the IP provider succeeds and reports
`city = "Paris"`, `country = "France"`, reverse-name resolution fails (the
Nominatim fetch rejects, so it resolves with `{}`), yet the returned location
carries no city and no country — the fallback to the IP provider's own names
never runs, because `reverseGeocode` never rejects. -/
theorem c7_ip_names_cex :
    getIPLocation envIpParis = Except.ok ipParisLoc ∧
      ipParisLoc.city = none ∧ ipParisLoc.country = none ∧
      ipBody1.city = some "Paris" ∧ ipBody1.country = some "France" :=
  ⟨rfl, rfl, rfl, rfl, rfl⟩

/-- C7 (amended): when the IP provider succeeds, the returned location's
`city`/`country` come solely from what `reverseGeocode` resolves with (kept
only when truthy); since `reverseGeocode` never rejects, the `catch` fallback
to the IP provider's own `data.city`/`data.country` is unreachable, and a
failed reverse-name resolution leaves the names absent. -/
theorem c7_ip_names_amended (env : DetectEnv) (resp : HttpResp IPLocationResponse)
    (data : IPLocationResponse) (lat lon : ℚ) (n : GeoNames)
    (hf : env.ipFetch = Except.ok resp) (hok : resp.ok = true)
    (hj : resp.json = Except.ok data) (hs : data.status = "success")
    (hlat : data.lat = some lat) (hlon : data.lon = some lon)
    (hR : reverseGeocode (env.revGeo lat lon) = Except.ok n) :
    getIPLocation env = Except.ok
      { latitude := lat, longitude := lon
        city := setIfTruthy none n.city, country := setIfTruthy none n.country
        source := LocSource.ip } := by
  unfold getIPLocation getIPLocationTry
  rw [hf]
  simp [hok, hj, hs, hlat, hlon, hR]

/-- Witness for the amended C7 at `envIpParis`. -/
theorem c7_ip_names_amended_witness :
    envIpParis.ipFetch = Except.ok ipResp1 ∧
      ipResp1.ok = true ∧ ipResp1.json = Except.ok ipBody1 ∧
      ipBody1.status = "success" ∧
      getIPLocation envIpParis = Except.ok ipParisLoc := by
  refine ⟨rfl, rfl, rfl, rfl, ?_⟩
  exact c7_ip_names_amended envIpParis ipResp1 ipBody1 (mkRat 4885 100) (mkRat 235 100)
    { city := none, country := none } rfl rfl rfl rfl rfl rfl rfl

/-! ### C5 -/

/-- C5: a `get` hit on an unexpired entry returns a shallow copy of the stored
payload with `source` overwritten to `cache`, while the stored entry — its
payload's original `source` included — is left unmodified in the cache. -/
theorem c5_cache_hit_copy (c : WeatherCache) (cfg : Config) (now : ℤ)
    (la lo : ℚ) (entry : CacheEntry)
    (hen : cfg.cache.enabled = true)
    (hnd : (c.entries.map Prod.fst).Nodup)
    (hlk : lookupKey c.entries (getCacheKey la lo) = some entry)
    (hexp : ¬ now > entry.expiresAt) :
    (WeatherCache.get c cfg now la lo).1 = some { entry.data with source := WSource.cache } ∧
      lookupKey (WeatherCache.get c cfg now la lo).2.entries (getCacheKey la lo) =
        some entry := by
  have hne : ¬(cfg.cache.enabled = false) := by simp [hen]
  simp only [WeatherCache.get, if_neg hne, hlk, if_neg hexp]
  refine ⟨trivial, ?_⟩
  rw [lookupKey_append_none _ _ _ (lookupKey_eraseKey_self c.entries _ hnd)]
  simp [lookupKey]

/-- The unexpired cache entry (payload provenance `api`) used by witnesses. -/
def entryA : CacheEntry := { data := sampleWeather, timestamp := 0, expiresAt := 600000 }

/-- A one-entry cache at capacity 10 holding `entryA`. -/
def cW : WeatherCache :=
  { entries := [(getCacheKey (mkRat 377749 10000) (mkRat (-1224194) 10000), entryA)]
    maxEntries := 10, ttl := 600000 }

/-- Witness for C5: reading the stored `api` payload yields a `cache`-tagged
copy while the stored entry still holds the `api` original. -/
theorem c5_cache_hit_copy_witness :
    defaultConfig.cache.enabled = true ∧
      lookupKey cW.entries (getCacheKey (mkRat 377749 10000) (mkRat (-1224194) 10000)) =
        some entryA ∧
      (WeatherCache.get cW defaultConfig 0 (mkRat 377749 10000) (mkRat (-1224194) 10000)).1 =
        some { sampleWeather with source := WSource.cache } ∧
      lookupKey
          (WeatherCache.get cW defaultConfig 0 (mkRat 377749 10000)
            (mkRat (-1224194) 10000)).2.entries
          (getCacheKey (mkRat 377749 10000) (mkRat (-1224194) 10000)) = some entryA ∧
      entryA.data.source = WSource.api := by
  have h := c5_cache_hit_copy cW defaultConfig 0 (mkRat 377749 10000) (mkRat (-1224194) 10000)
    entryA rfl (by decide) (by decide) (by decide)
  exact ⟨rfl, by decide, h.1, h.2, rfl⟩

/-! ### C10 -/

/-- C10: `has` does not consult the enabled flag — with caching disabled and
an unexpired entry present, `has` answers `true` while `get` answers absent
for the same location. -/
theorem c10_has_ignores_enabled (c : WeatherCache) (cfg : Config) (now : ℤ)
    (la lo : ℚ) (entry : CacheEntry)
    (hdis : cfg.cache.enabled = false)
    (hlk : lookupKey c.entries (getCacheKey la lo) = some entry)
    (hexp : ¬ now > entry.expiresAt) :
    (WeatherCache.hasLoc c now la lo).1 = true ∧
      (WeatherCache.get c cfg now la lo).1 = none := by
  constructor
  · simp only [WeatherCache.hasLoc, hlk, if_neg hexp]
  · simp only [WeatherCache.get, if_pos hdis]

/-- The ambient config with caching disabled. -/
def cfgOff : Config :=
  { location := defaultConfig.location, cache := { ttl := 600000, enabled := false } }

/-- Witness for C10 on the concrete one-entry cache. -/
theorem c10_has_ignores_enabled_witness :
    cfgOff.cache.enabled = false ∧
      (WeatherCache.hasLoc cW 0 (mkRat 377749 10000) (mkRat (-1224194) 10000)).1 = true ∧
      (WeatherCache.get cW cfgOff 0 (mkRat 377749 10000) (mkRat (-1224194) 10000)).1 =
        none := by
  have h := c10_has_ignores_enabled cW cfgOff 0 (mkRat 377749 10000) (mkRat (-1224194) 10000)
    entryA rfl (by decide) (by decide)
  exact ⟨rfl, h.1, h.2⟩

/-! ### C3 -/

theorem applyOp_maxEntries (c : WeatherCache) (op : CacheOp) :
    (applyOp c op).maxEntries = c.maxEntries := by
  cases op <;>
    simp only [applyOp, WeatherCache.get, WeatherCache.set, WeatherCache.hasLoc,
      WeatherCache.clearAll] <;>
    repeat' split
  all_goals rfl

theorem applyOp_length_le (c : WeatherCache) (op : CacheOp)
    (hmax : 1 ≤ c.maxEntries) (hlen : c.entries.length ≤ c.maxEntries) :
    (applyOp c op).entries.length ≤ c.maxEntries := by
  cases op with
  | opGet cfg now la lo =>
    simp only [applyOp, WeatherCache.get]
    split
    · exact hlen
    · split
      · exact hlen
      · rename_i entry hlk
        split
        · have h1 := length_eraseKey_some c.entries (getCacheKey la lo) entry hlk
          show (eraseKey c.entries (getCacheKey la lo)).length ≤ c.maxEntries
          omega
        · have h1 := length_eraseKey_some c.entries (getCacheKey la lo) entry hlk
          show (eraseKey c.entries (getCacheKey la lo) ++
            [(getCacheKey la lo, entry)]).length ≤ c.maxEntries
          rw [List.length_append]
          simp only [List.length_cons, List.length_nil]
          omega
  | opSet cfg now la lo d =>
    simp only [applyOp, WeatherCache.set]
    split
    · exact hlen
    · split
      · rename_i hcond
        split
        · rename_i hnil
          show (eraseKey [] (getCacheKey la lo) ++
            [(getCacheKey la lo,
              ({ data := d, timestamp := now, expiresAt := now + c.ttl } :
                CacheEntry))]).length ≤ c.maxEntries
          simpa [eraseKey] using hmax
        · rename_i hd tl hcons
          have hnone : lookupKey c.entries (getCacheKey la lo) = none := by
            rcases hcond with ⟨h1, h2⟩
            cases hc : lookupKey c.entries (getCacheKey la lo) with
            | none => rfl
            | some x => rw [hc] at h2; cases h2
          rw [hcons] at hnone
          have htl := (lookupKey_cons_none hd tl _ hnone).2
          show (eraseKey tl (getCacheKey la lo) ++
            [(getCacheKey la lo,
              ({ data := d, timestamp := now, expiresAt := now + c.ttl } :
                CacheEntry))]).length ≤ c.maxEntries
          rw [eraseKey_none tl _ htl, List.length_append]
          simp only [List.length_cons, List.length_nil]
          have : c.entries.length = tl.length + 1 := by rw [hcons]; rfl
          omega
      · rename_i hcond
        show (eraseKey c.entries (getCacheKey la lo) ++
          [(getCacheKey la lo,
            ({ data := d, timestamp := now, expiresAt := now + c.ttl } :
              CacheEntry))]).length ≤ c.maxEntries
        rw [List.length_append]
        simp only [List.length_cons, List.length_nil]
        cases hlk : lookupKey c.entries (getCacheKey la lo) with
        | some e2 =>
          have h1 := length_eraseKey_some c.entries (getCacheKey la lo) e2 hlk
          omega
        | none =>
          rw [eraseKey_none c.entries _ hlk]
          have hlt : ¬ c.entries.length ≥ c.maxEntries := by
            intro hge
            exact hcond ⟨hge, by rw [hlk]; rfl⟩
          omega
  | opHas now la lo =>
    simp only [applyOp, WeatherCache.hasLoc]
    split
    · exact hlen
    · rename_i entry hlk
      split
      · have h1 := length_eraseKey_some c.entries (getCacheKey la lo) entry hlk
        show (eraseKey c.entries (getCacheKey la lo)).length ≤ c.maxEntries
        omega
      · exact hlen
  | opClear =>
    show ([] : List (String × CacheEntry)).length ≤ c.maxEntries
    simp

theorem runOps_length_le (ops : List CacheOp) (c : WeatherCache)
    (hmax : 1 ≤ c.maxEntries) (hlen : c.entries.length ≤ c.maxEntries) :
    (runOps c ops).entries.length ≤ c.maxEntries := by
  induction ops generalizing c with
  | nil => exact hlen
  | cons op rest ih =>
    have hm := applyOp_maxEntries c op
    have h1 := applyOp_length_le c op hmax hlen
    have h2 := ih (applyOp c op) (by omega) (by omega)
    show (runOps (applyOp c op) rest).entries.length ≤ c.maxEntries
    omega

theorem set_eviction (c : WeatherCache) (cfg : Config) (now : ℤ) (la lo : ℚ)
    (d : WeatherData)
    (hen : cfg.cache.enabled = true)
    (hnew : lookupKey c.entries (getCacheKey la lo) = none)
    (hlen : c.entries.length = c.maxEntries) (hmax : 1 ≤ c.maxEntries) :
    (WeatherCache.set c cfg now la lo d).entries =
      c.entries.tail ++
        [(getCacheKey la lo, { data := d, timestamp := now, expiresAt := now + c.ttl })] := by
  have hne : ¬(cfg.cache.enabled = false) := by simp [hen]
  have hcond : c.entries.length ≥ c.maxEntries ∧
      (lookupKey c.entries (getCacheKey la lo)).isNone = true := ⟨by omega, by rw [hnew]; rfl⟩
  simp only [WeatherCache.set, if_neg hne, if_pos hcond]
  cases hE : c.entries with
  | nil =>
    exfalso
    rw [hE] at hlen
    simp at hlen
    omega
  | cons hd tl =>
    have hnone' : lookupKey (hd :: tl) (getCacheKey la lo) = none := hE ▸ hnew
    have htl := (lookupKey_cons_none hd tl _ hnone').2
    show eraseKey tl (getCacheKey la lo) ++
        [(getCacheKey la lo,
          ({ data := d, timestamp := now, expiresAt := now + c.ttl } : CacheEntry))] =
      tl ++
        [(getCacheKey la lo,
          ({ data := d, timestamp := now, expiresAt := now + c.ttl } : CacheEntry))]
    rw [eraseKey_none tl _ htl]

theorem protection_core (c₂ : WeatherCache) (cfg : Config) (now₂ : ℤ) (la2 lo2 : ℚ)
    (d : WeatherData) (key : String) (e : CacheEntry) (E : List (String × CacheEntry))
    (hen : cfg.cache.enabled = true)
    (hE : c₂.entries = E ++ [(key, e)]) (hEne : E ≠ [])
    (hlen2 : c₂.entries.length ≥ c₂.maxEntries)
    (hkne : getCacheKey la2 lo2 ≠ key)
    (hEnone : lookupKey E key = none)
    (hnew2 : lookupKey c₂.entries (getCacheKey la2 lo2) = none) :
    lookupKey (WeatherCache.set c₂ cfg now₂ la2 lo2 d).entries key = some e := by
  have hne : ¬(cfg.cache.enabled = false) := by simp [hen]
  have hcond : c₂.entries.length ≥ c₂.maxEntries ∧
      (lookupKey c₂.entries (getCacheKey la2 lo2)).isNone = true := ⟨hlen2, by rw [hnew2]; rfl⟩
  simp only [WeatherCache.set, if_neg hne, if_pos hcond]
  cases hEE : E with
  | nil => exact absurd hEE hEne
  | cons p ps =>
    rw [hE, hEE]
    simp only [List.cons_append]
    have hps : lookupKey ps key = none := by
      rw [hEE] at hEnone
      exact (lookupKey_cons_none p ps key hEnone).2
    have h1 : lookupKey (ps ++ [(key, e)]) key = some e := by
      rw [lookupKey_append_none ps _ key hps]
      simp [lookupKey]
    have h2 : lookupKey (eraseKey (ps ++ [(key, e)]) (getCacheKey la2 lo2)) key = some e := by
      rw [lookupKey_eraseKey_ne _ _ _ hkne]
      exact h1
    exact lookupKey_append_some _ _ _ _ h2

theorem get_then_set_protects (c : WeatherCache) (cfg : Config) (now₁ now₂ : ℤ)
    (la lo la2 lo2 : ℚ) (d : WeatherData) (e : CacheEntry)
    (hen : cfg.cache.enabled = true)
    (hnd : (c.entries.map Prod.fst).Nodup)
    (hlen : c.entries.length = c.maxEntries) (hmax : 2 ≤ c.maxEntries)
    (hlk : lookupKey c.entries (getCacheKey la lo) = some e)
    (hexp : ¬ now₁ > e.expiresAt)
    (hkne : getCacheKey la2 lo2 ≠ getCacheKey la lo)
    (hnew : lookupKey c.entries (getCacheKey la2 lo2) = none) :
    lookupKey (WeatherCache.set (WeatherCache.get c cfg now₁ la lo).2 cfg
      now₂ la2 lo2 d).entries (getCacheKey la lo) = some e := by
  have hne : ¬(cfg.cache.enabled = false) := by simp [hen]
  have hgetE : (WeatherCache.get c cfg now₁ la lo).2.entries =
      eraseKey c.entries (getCacheKey la lo) ++ [(getCacheKey la lo, e)] := by
    simp only [WeatherCache.get, if_neg hne, hlk, if_neg hexp]
  have hgetM : (WeatherCache.get c cfg now₁ la lo).2.maxEntries = c.maxEntries := by
    simp only [WeatherCache.get, if_neg hne, hlk, if_neg hexp]
  have hElen := length_eraseKey_some c.entries (getCacheKey la lo) e hlk
  have hEne : eraseKey c.entries (getCacheKey la lo) ≠ [] := by
    intro hnil
    rw [hnil] at hElen
    simp at hElen
    omega
  have hEnone := lookupKey_eraseKey_self c.entries (getCacheKey la lo) hnd
  have hnew2 : lookupKey (WeatherCache.get c cfg now₁ la lo).2.entries
      (getCacheKey la2 lo2) = none := by
    rw [hgetE, lookupKey_append_none _ _ _ (by
      rw [lookupKey_eraseKey_ne _ _ _ (Ne.symm hkne)]
      exact hnew)]
    simp only [lookupKey, if_neg (Ne.symm hkne)]
  have hlen2 : (WeatherCache.get c cfg now₁ la lo).2.entries.length ≥
      (WeatherCache.get c cfg now₁ la lo).2.maxEntries := by
    rw [hgetE, hgetM, List.length_append]
    simp only [List.length_cons, List.length_nil]
    omega
  exact protection_core (WeatherCache.get c cfg now₁ la lo).2 cfg now₂ la2 lo2 d
    (getCacheKey la lo) e (eraseKey c.entries (getCacheKey la lo)) hen hgetE hEne hlen2
    hkne hEnone hnew2

/-- C3 (amended): provided `maxEntries ≥ 1`, every operation sequence from an
empty cache keeps the store at no more than `maxEntries` entries; an enabled
`set` of a new key at capacity evicts exactly the head entry — the
least-recently-used one, since both a successful `get` and a `set` move a key
to the most-recently-used tail position — and a successful `get` on a key
immediately before the overflow insert protects that key from the eviction
whenever the cache holds at least two entries. -/
theorem c3_lru_amended :
    (∀ (N : ℕ) (ttl : ℤ) (ops : List CacheOp), 1 ≤ N →
        (runOps { entries := [], maxEntries := N, ttl := ttl } ops).entries.length ≤ N) ∧
      (∀ (c : WeatherCache) (cfg : Config) (now : ℤ) (la lo : ℚ) (d : WeatherData),
        cfg.cache.enabled = true →
        lookupKey c.entries (getCacheKey la lo) = none →
        c.entries.length = c.maxEntries → 1 ≤ c.maxEntries →
        (WeatherCache.set c cfg now la lo d).entries =
          c.entries.tail ++
            [(getCacheKey la lo,
              { data := d, timestamp := now, expiresAt := now + c.ttl })]) ∧
      (∀ (c : WeatherCache) (cfg : Config) (now₁ now₂ : ℤ) (la lo la2 lo2 : ℚ)
          (d : WeatherData) (e : CacheEntry),
        cfg.cache.enabled = true →
        (c.entries.map Prod.fst).Nodup →
        c.entries.length = c.maxEntries → 2 ≤ c.maxEntries →
        lookupKey c.entries (getCacheKey la lo) = some e →
        ¬ now₁ > e.expiresAt →
        getCacheKey la2 lo2 ≠ getCacheKey la lo →
        lookupKey c.entries (getCacheKey la2 lo2) = none →
        lookupKey (WeatherCache.set (WeatherCache.get c cfg now₁ la lo).2 cfg
          now₂ la2 lo2 d).entries (getCacheKey la lo) = some e) :=
  ⟨fun _N _ttl ops hN => runOps_length_le ops _ hN (Nat.zero_le _),
   fun c cfg now la lo d hen hnew hlen hmax => set_eviction c cfg now la lo d hen hnew hlen hmax,
   fun c cfg now₁ now₂ la lo la2 lo2 d e hen hnd hlen hmax hlk hexp hkne hnew =>
     get_then_set_protects c cfg now₁ now₂ la lo la2 lo2 d e hen hnd hlen hmax hlk hexp
       hkne hnew⟩

/-- A one-entry cache at capacity 1 holding `entryA` under key `(1, 1)`. -/
def c3w : WeatherCache :=
  { entries := [(getCacheKey (mkRat 1 1) (mkRat 1 1), entryA)], maxEntries := 1, ttl := 600000 }

/-- Witness for the amended C3: inserting a new key into `c3w` at capacity
evicts exactly the head entry. -/
theorem c3_lru_amended_witness :
    defaultConfig.cache.enabled = true ∧
      lookupKey c3w.entries (getCacheKey (mkRat 2 1) (mkRat 2 1)) = none ∧
      c3w.entries.length = c3w.maxEntries ∧
      (WeatherCache.set c3w defaultConfig 0 (mkRat 2 1) (mkRat 2 1) sampleWeather).entries =
        c3w.entries.tail ++
          [(getCacheKey (mkRat 2 1) (mkRat 2 1),
            { data := sampleWeather, timestamp := 0, expiresAt := 0 + c3w.ttl })] := by
  refine ⟨rfl, by decide, rfl, ?_⟩
  exact c3_lru_amended.2.1 c3w defaultConfig 0 (mkRat 2 1) (mkRat 2 1) sampleWeather rfl
    (by decide) rfl (by decide)

/-- The degenerate cache constructed with `maxEntries = 0`. -/
def c3cex0 : WeatherCache := { entries := [], maxEntries := 0, ttl := 600000 }

/-- An empty cache with `maxEntries = 1`. -/
def c3cex1 : WeatherCache := { entries := [], maxEntries := 1, ttl := 600000 }

/-- `c3cex1` after caching key `(1, 1)`. -/
def c3cexA : WeatherCache :=
  WeatherCache.set c3cex1 defaultConfig 0 (mkRat 1 1) (mkRat 2 1) sampleWeather

/-- A successful `get` of key `(1, 1)` on `c3cexA` (hit, promotes it). -/
def c3cexGot : Option WeatherData × WeatherCache :=
  WeatherCache.get c3cexA defaultConfig 0 (mkRat 1 1) (mkRat 2 1)

/-- The cache after the overflow insert of key `(3, 4)` right after that get. -/
def c3cexB : WeatherCache :=
  WeatherCache.set c3cexGot.2 defaultConfig 0 (mkRat 3 1) (mkRat 4 1) sampleWeather

/-- Counterexample to C3 as stated: (a) with `maxEntries = 0` (the constructor
accepts any capacity) a single enabled `set` leaves one entry, exceeding the
bound; (b) with `maxEntries = 1`, a successful `get` of the sole key
immediately before an overflow insert does not protect it — it is evicted
anyway. -/
theorem c3_lru_cex :
    c3cex0.maxEntries = 0 ∧
      (WeatherCache.set c3cex0 defaultConfig 0 (mkRat 1 1) (mkRat 2 1)
        sampleWeather).entries.length = 1 ∧
      c3cexGot.1.isSome = true ∧
      lookupKey c3cexB.entries (getCacheKey (mkRat 1 1) (mkRat 2 1)) = none := by
  refine ⟨rfl, by decide, by decide, by decide⟩

end WeatherLite
